import Mathlib

/-!
# Slack notifier for build events: message construction

A shallow embedding of `slack/main.go` (package `main`): the method
`slackNotifier.writeMessage`, which turns a Cloud Build event into a Slack
webhook message, the methods `SetUp` and `SendNotification` around it, and
the Go primitives they use (`fmt.Sprintf`, `fmt.Errorf` with `%w`, map
indexing, a store through a pointer).

Go values are modelled as follows.

* `string` is `String`; `map[string]string` is an association list read with
  Go's indexing rule (a missing key reads as the empty string).
* A pointer that may be nil is an `Option`.
* `error` is `GoError`, which records the message and the wrapped cause.
* A call either returns or stops with a runtime fault: `Exec`.
* The functions of the notifiers and slack libraries live outside this
  repository and are parameters of the model (`Env`, `SecretGetter`).
* The calls that `SendNotification` makes to the logger, the annotation
  function and the webhook client are recorded in a list of `Call`s.
-/

namespace Slack

/-! ## Go primitives -/

/-- Runtime faults (Go panics) that the embedded code can raise. -/
inductive RuntimeFault where
  | nilDereference
  deriving DecidableEq, Repr

/-- Outcome of running a Go function body: it returns its results, or the
goroutine stops with a runtime fault. -/
inductive Exec (α : Type) where
  | returned (results : α)
  | panicked (fault : RuntimeFault)
  deriving DecidableEq, Repr

/-- Sequencing of Go statements: a fault in the first part stops the rest. -/
def Exec.bind {α β : Type} (x : Exec α) (f : α → Exec β) : Exec β :=
  match x with
  | .returned a => f a
  | .panicked p => .panicked p

/-- Go `error` values: an error made by a collaborator, or an error built by
`fmt.Errorf` with the `%w` verb, which keeps the error it wraps. -/
inductive GoError where
  | leaf (msg : String)
  | wrapped (msg : String) (cause : GoError)
  deriving DecidableEq, Repr

/-- The method `Error()` of an error. -/
def GoError.Error : GoError → String
  | .leaf msg => msg
  | .wrapped msg _ => msg

/-- The function `errors.Unwrap`. -/
def GoError.Unwrap : GoError → Option GoError
  | .leaf _ => none
  | .wrapped _ cause => some cause

/-- Rendering of the operands that are left over when the format is used up,
as `fmt` prints them inside `%!(EXTRA ...)`. -/
def fmtExtra : List String → List Char
  | [] => []
  | [a] => "string=".data ++ a.data
  | a :: rest => "string=".data ++ a.data ++ ", ".data ++ fmtExtra rest

/-- The formatting loop of `fmt.Sprintf` for string operands and the verbs
this program applies to them: `%s` (and `%w`, which `fmt.Errorf` prints like
`%s`) consumes the next operand, `%%` prints a percent sign, a percent sign at
the end of the format prints `%!(NOVERB)`, every other character is copied.
The verbs `%v` and `%q` also consume the next operand; their operand is given
as the text that the verb prints for the value (`Env.FormatV`,
`Env.FormatQ`). -/
def fmtChars : List Char → List String → List Char
  | [], [] => []
  | [], a :: rest => "%!(EXTRA ".data ++ fmtExtra (a :: rest) ++ [')']
  | [c], args =>
    if c = '%' then "%!(NOVERB)".data ++ fmtChars [] args else c :: fmtChars [] args
  | c :: d :: rest, args =>
    if c = '%' then
      if d = 's' ∨ d = 'w' ∨ d = 'v' ∨ d = 'q' then
        match args with
        | [] => "%!".data ++ [d] ++ "(MISSING)".data ++ fmtChars rest []
        | a :: args => a.data ++ fmtChars rest args
      else if d = '%' then '%' :: fmtChars rest args
      else c :: fmtChars (d :: rest) args
    else c :: fmtChars (d :: rest) args

/-- The function `fmt.Sprintf`, for string operands. -/
def Sprintf (format : String) (args : List String) : String :=
  ⟨fmtChars format.data args⟩

/-- The function `fmt.Errorf` for a format whose only verb is one `%w`: the
message is the format with the cause's message in place of the verb, and the
cause is kept for `errors.Unwrap`. -/
def Errorf (format : String) (err : GoError) : GoError :=
  .wrapped (Sprintf format [err.Error]) err

/-- The function `fmt.Errorf` for a format with `%v` and `%q` verbs followed
by one `%w`: `operands` holds the text printed for the values before the
error. -/
def ErrorfArgs (format : String) (operands : List String) (err : GoError) : GoError :=
  .wrapped (Sprintf format (operands ++ [err.Error])) err

/-- Go's map index expression `m[key]` on a `map[string]string`: the value
stored under the key, and the empty string when the key is missing (a nil map
has no keys). -/
def index (m : List (String × String)) (key : String) : String :=
  match m.lookup key with
  | some v => v
  | none => ""

/-- The assignment `*p = v` through a pointer `p`: a nil pointer faults,
otherwise the cell it points to holds `v` afterwards. -/
def storeThrough {α : Type} (p : Option α) (v : α) : Exec (Option α) :=
  match p with
  | none => .panicked .nilDereference
  | some _ => .returned (some v)

/-! ## Types of the collaborating packages -/

/-- The enumeration `cbpb.Build_Status`, an `int32` in Go. -/
abbrev Build_Status := Int

/-- Modelled from the spec: the status constants are declared in the Cloud
Build protobuf package, outside this repository; the spec names them and the
numbers are those of the protobuf enumeration. The code only compares them. -/
def Build_SUCCESS : Build_Status := 3

/-- Modelled from the spec: see `Build_SUCCESS`. -/
def Build_FAILURE : Build_Status := 4

/-- Modelled from the spec: see `Build_SUCCESS`. -/
def Build_INTERNAL_ERROR : Build_Status := 5

/-- Modelled from the spec: see `Build_SUCCESS`. -/
def Build_TIMEOUT : Build_Status := 6

/-- The message `cbpb.BuildStep`, with the fields this program reads (`Id`,
`Status`) and the step's `Name`. -/
structure BuildStep where
  Name : String
  Id : String
  Status : Build_Status
  deriving DecidableEq, Repr

/-- The message `cbpb.Build`, with the fields this program and its test use. -/
structure Build where
  ProjectId : String
  Id : String
  Status : Build_Status
  Steps : List BuildStep
  LogUrl : String
  Substitutions : List (String × String)
  deriving DecidableEq, Repr

/-- The struct `slack.AttachmentAction`; the program sets these three fields
and leaves the others at their zero value. -/
structure AttachmentAction where
  Text : String
  Type_ : String
  URL : String
  deriving DecidableEq, Repr

/-- The struct `slack.Attachment`; the program sets these three fields. -/
structure Attachment where
  Text : String
  Color : String
  Actions : List AttachmentAction
  deriving DecidableEq, Repr

/-- The struct `slack.WebhookMessage`; the program sets `Attachments`. -/
structure WebhookMessage where
  Attachments : List Attachment
  deriving DecidableEq, Repr

/-- The type `notifiers.UTMMedium`, a string in Go. -/
abbrev UTMMedium := String

/-- Modelled from the spec: the constant `notifiers.ChatMedium` is declared in
the notifiers library; the spec gives its value (medium = "chat"). -/
def ChatMedium : UTMMedium := "chat"

/-- The interface `notifiers.EventFilter`: a predicate on builds. -/
structure EventFilter where
  Apply : Build → Bool

/-- The struct `notifiers.Secret`: a local name and the resource it stands
for. -/
structure Secret where
  LocalName : String
  ResourceName : String
  deriving DecidableEq, Repr

/-- The delivery map of a notifier configuration (`map[string]interface{}` in
Go); each field holds a map such as `secretRef: <local name>`. -/
abbrev DeliveryConfig := List (String × List (String × String))

/-- The struct `notifiers.Notification`, with the fields `SetUp` reads. -/
structure Notification where
  Filter : String
  Delivery : DeliveryConfig
  deriving DecidableEq, Repr

/-- The struct `notifiers.Spec`, with the fields `SetUp` reads. -/
structure NotifierSpec where
  Notification : Notification
  Secrets : List Secret
  deriving DecidableEq, Repr

/-- The struct `notifiers.Config`, with the field `SetUp` reads. -/
structure Config where
  Spec : NotifierSpec
  deriving DecidableEq, Repr

/-- The interface `notifiers.SecretGetter`. -/
structure SecretGetter where
  GetSecret : String → Except GoError String

/-- The functions of the notifiers, slack and fmt libraries that the notifier
calls. `FormatV` is the text that `fmt` prints for a delivery map under `%v`,
`FormatQ` the text it prints for a string under `%q`. -/
structure Env where
  AddUTMParams : String → UTMMedium → Except GoError String
  PostWebhook : String → Option WebhookMessage → Option GoError
  MakeCELPredicate : String → Except GoError EventFilter
  GetSecretRef : DeliveryConfig → String → Except GoError String
  FindSecretResourceName : List Secret → String → Except GoError String
  FormatV : DeliveryConfig → String
  FormatQ : String → String

/-- A call that `SendNotification` makes to a collaborator: the logger, the
annotation function, the webhook client. -/
inductive Call where
  | Infof (format : String) (id : String) (status : Build_Status)
  | AddUTMParams (origURL : String) (medium : UTMMedium)
  | PostWebhook (url : String) (msg : Option WebhookMessage)
  deriving DecidableEq, Repr

/-! ## The notifier -/

/-- The constant `GH_ORG_NAME`. -/
def GH_ORG_NAME : String := "flinkstech"

/-- The constant `webhookURLSecretName`. -/
def webhookURLSecretName : String := "webhookUrl"

/-- The struct `slackNotifier`; `filter` is an interface value, nil until
`SetUp` stores a predicate. -/
structure slackNotifier where
  filter : Option EventFilter
  webhookURL : String

/-- The local array `BAD_STATUSES` of `writeMessage`. -/
def BAD_STATUSES : List Build_Status :=
  [Build_FAILURE, Build_INTERNAL_ERROR, Build_TIMEOUT]

/-- The variables `clr` and `statusMsg` after the `switch` on the build
status. -/
def statusSwitch (status : Build_Status) (statusMsg : String) : String × String :=
  if status = Build_SUCCESS then
    ("good", "has succeeded")
  else if status = Build_FAILURE ∨ status = Build_INTERNAL_ERROR ∨ status = Build_TIMEOUT then
    ("danger", "has failed")
  else
    ("warning", statusMsg)

/-- One pass of the inner loop `for _, status := range BAD_STATUSES` for a
step, on the variables `failedStep` and `statusMsg`. -/
def scanStatuses (step : BuildStep) (vars : Option BuildStep × String) :
    Option BuildStep × String :=
  BAD_STATUSES.foldl
    (fun vars status =>
      if step.Status = status then
        let failedStep := step
        (some failedStep, vars.2 ++ Sprintf " %s" [failedStep.Id])
      else vars)
    vars

/-- The outer loop `for _, step := range build.Steps`. -/
def scanSteps (steps : List BuildStep) (vars : Option BuildStep × String) :
    Option BuildStep × String :=
  steps.foldl (fun vars step => scanStatuses step vars) vars

/-- The method `slackNotifier.writeMessage`. The results are the pair
`(*slack.WebhookMessage, error)`. -/
def writeMessage (env : Env) (_s : slackNotifier) (build : Build) :
    Exec (Option WebhookMessage × Option GoError) :=
  let failedStep : Option BuildStep := none
  let statusMsg := ""
  let (clr, statusMsg) := statusSwitch build.Status statusMsg
  let (_failedStep, statusMsg) := scanSteps build.Steps (failedStep, statusMsg)
  let txt := Sprintf "Build for commit '%s' on branch '%s' %s"
    [index build.Substitutions "SHORT_SHA",
     index build.Substitutions "BRANCH_NAME",
     statusMsg]
  match env.AddUTMParams build.LogUrl ChatMedium with
  | .error err => .returned (none, some (Errorf "failed to add UTM params: %w" err))
  | .ok logURL =>
    let pr : Option AttachmentAction := none
    Exec.bind
      (if index build.Substitutions "BRANCH_NAME" ≠ "master"
          ∧ index build.Substitutions "_PR_NUMBER" ≠ "" then
        storeThrough pr
          { Text := "View PR"
            Type_ := "button"
            URL := Sprintf "https://github.com/%s/%s/pull/%s"
              [GH_ORG_NAME,
               index build.Substitutions "REPO_NAME",
               index build.Substitutions "_PR_NUMBER"] }
      else .returned pr)
      fun pr =>
        let actions : List AttachmentAction :=
          [{ Text := "View on GCB"
             Type_ := "button"
             URL := logURL },
           { Text := "View commit"
             Type_ := "button"
             URL := Sprintf "https://github.com/%s/%s/commit/%s"
               [GH_ORG_NAME,
                index build.Substitutions "REPO_NAME",
                index build.Substitutions "COMMIT_SHA"] }]
        let actions :=
          match pr with
          | some a => actions ++ [a]
          | none => actions
        let atch : Attachment :=
          { Text := txt
            Color := clr
            Actions := actions }
        .returned (some { Attachments := [atch] }, none)

/-- The method `slackNotifier.SetUp`. The results are the returned error and
the notifier as the method leaves it. -/
def SetUp (env : Env) (s : slackNotifier) (cfg : Config) (sg : SecretGetter) :
    Option GoError × slackNotifier :=
  match env.MakeCELPredicate cfg.Spec.Notification.Filter with
  | .error err => (some (Errorf "failed to make a CEL predicate: %w" err), s)
  | .ok prd =>
    let s := { s with filter := some prd }
    match env.GetSecretRef cfg.Spec.Notification.Delivery webhookURLSecretName with
    | .error err =>
      (some (ErrorfArgs "failed to get Secret ref from delivery config (%v) field %q: %w"
          [env.FormatV cfg.Spec.Notification.Delivery, env.FormatQ webhookURLSecretName]
          err),
       s)
    | .ok wuRef =>
      match env.FindSecretResourceName cfg.Spec.Secrets wuRef with
      | .error err =>
        (some (ErrorfArgs "failed to find Secret for ref %q: %w" [env.FormatQ wuRef] err), s)
      | .ok wuResource =>
        match sg.GetSecret wuResource with
        | .error err => (some (Errorf "failed to get token secret: %w" err), s)
        | .ok wu =>
          let s := { s with webhookURL := wu }
          (none, s)

/-- The method `slackNotifier.SendNotification`. The results are the returned
error (or the fault that stops the call) and the calls made to the
collaborators, in order. A nil `filter` faults at `s.filter.Apply`; the call to
`notifiers.AddUTMParams` is the one that `writeMessage` makes on every path
(line 115), before it can return or fault. -/
def SendNotification (env : Env) (s : slackNotifier) (build : Build) :
    Exec (Option GoError) × List Call :=
  match s.filter with
  | none => (.panicked .nilDereference, [])
  | some filter =>
    if !filter.Apply build then
      (.returned none, [])
    else
      let calls : List Call :=
        [.Infof "sending Slack webhook for Build %q (status: %q)" build.Id build.Status]
      let calls := calls ++ [.AddUTMParams build.LogUrl ChatMedium]
      match writeMessage env s build with
      | .panicked fault => (.panicked fault, calls)
      | .returned (_, some err) =>
        (.returned (some (Errorf "failed to write Slack message: %w" err)), calls)
      | .returned (msg, none) =>
        let calls := calls ++ [.PostWebhook s.webhookURL msg]
        (.returned (env.PostWebhook s.webhookURL msg), calls)

/-! ## Closed forms used in the statements -/

/-- Whether a status is one of `BAD_STATUSES`. -/
def isBad (status : Build_Status) : Bool :=
  decide (status = Build_FAILURE ∨ status = Build_INTERNAL_ERROR ∨ status = Build_TIMEOUT)

/-- The text that the failing steps add to the status phrase: for each step
in a bad status, in order, a space and the step id. -/
def failedStepIds (steps : List BuildStep) : String :=
  String.join ((steps.filter fun st => isBad st.Status).map fun st => " " ++ st.Id)

/-- The "View on GCB" action for an annotated log URL. -/
def viewOnGCB (logURL : String) : AttachmentAction :=
  { Text := "View on GCB", Type_ := "button", URL := logURL }

/-- The "View commit" action of a build. -/
def viewCommit (build : Build) : AttachmentAction :=
  { Text := "View commit", Type_ := "button",
    URL := "https://github.com/flinkstech/" ++ index build.Substitutions "REPO_NAME"
      ++ "/commit/" ++ index build.Substitutions "COMMIT_SHA" }

/-- The headline up to and including the space after the branch name. -/
def headline (build : Build) : String :=
  "Build for commit '" ++ index build.Substitutions "SHORT_SHA" ++ "' on branch '"
    ++ index build.Substitutions "BRANCH_NAME" ++ "' "

/-! ## Sample data for concrete evaluations -/

/-- A stand-in for `notifiers.AddUTMParams` on concrete inputs: like the
library it rejects a URL with an ASCII control character, and otherwise
appends the tracking parameters to the query. -/
def sampleAddUTMParams (origURL : String) (medium : UTMMedium) : Except GoError String :=
  if origURL.data.any (fun c => decide (c.toNat < 32)) then
    .error (.leaf "net/url: invalid control character in URL")
  else
    .ok (origURL ++ (if origURL.data.contains '?' then "&" else "?")
      ++ "utm_campaign=google-cloud-build-notifiers&utm_medium=" ++ medium
      ++ "&utm_source=google-cloud-build")

/-- A stand-in for `slack.PostWebhook`. On an empty URL the request cannot be
sent, and like the library the stand-in wraps the transport error under
"failed to post webhook". The endpoint `.../services/DOWN` answers HTTP 500,
for which the library returns its status-code error as it is, wrapping
nothing. Every other post succeeds. -/
def samplePostWebhook (url : String) (_msg : Option WebhookMessage) : Option GoError :=
  if url.data.isEmpty then
    some (.wrapped "failed to post webhook: Post \"\": unsupported protocol scheme \"\""
      (.leaf "Post \"\": unsupported protocol scheme \"\""))
  else if url = "https://hooks.slack.example.com/services/DOWN" then
    some (.leaf "slack server error: 500 Internal Server Error")
  else none

/-- A filter that accepts every build. -/
def acceptAll : EventFilter := { Apply := fun _ => true }

/-- A filter that accepts the builds with status SUCCESS only. -/
def successOnly : EventFilter := { Apply := fun build => decide (build.Status = Build_SUCCESS) }

/-- A stand-in for `notifiers.MakeCELPredicate`: the empty expression does not
compile, "build.status == Build.Status.SUCCESS" gives `successOnly`, every
other expression gives `acceptAll`. -/
def sampleMakeCELPredicate (filter : String) : Except GoError EventFilter :=
  if filter.data.isEmpty then .error (.leaf "failed to compile CEL expression")
  else if filter = "build.status == Build.Status.SUCCESS" then .ok successOnly
  else .ok acceptAll

/-- A stand-in for `notifiers.GetSecretRef`: the local name under `secretRef`
in the named field of the delivery map. -/
def sampleGetSecretRef (delivery : DeliveryConfig) (fieldName : String) :
    Except GoError String :=
  match delivery.lookup fieldName with
  | none => .error (.leaf "field not found in delivery config")
  | some field =>
    match field.lookup "secretRef" with
    | none => .error (.leaf "field does not have a secretRef")
    | some ref => .ok ref

/-- A stand-in for `notifiers.FindSecretResourceName`: the resource of the
first secret with the given local name. -/
def sampleFindSecretResourceName (secrets : List Secret) (ref : String) :
    Except GoError String :=
  match secrets.find? (fun sec => sec.LocalName = ref) with
  | none => .error (.leaf "no secret with that local name")
  | some sec => .ok sec.ResourceName

/-- A stand-in for the `%q` rendering of a string without special
characters. -/
def sampleFormatQ (str : String) : String := "\"" ++ str ++ "\""

/-- The sample environment. -/
def sampleEnv : Env :=
  { AddUTMParams := sampleAddUTMParams
    PostWebhook := samplePostWebhook
    MakeCELPredicate := sampleMakeCELPredicate
    GetSecretRef := sampleGetSecretRef
    FindSecretResourceName := sampleFindSecretResourceName
    FormatV := fun _ => "map[webhookUrl:map[secretRef:webhook-url]]"
    FormatQ := sampleFormatQ }

/-- A secret getter that knows one resource. -/
def sampleSecretGetter : SecretGetter :=
  { GetSecret := fun resource =>
      if resource = "projects/my-project-id/secrets/slack-webhook/versions/latest" then
        .ok "https://hooks.slack.example.com/services/T000/B000/XXXX"
      else .error (.leaf "secret not found") }

/-- A configuration whose four setup steps succeed in the sample
environment. -/
def sampleConfig : Config :=
  { Spec :=
      { Notification :=
          { Filter := "build.status == Build.Status.SUCCESS"
            Delivery := [("webhookUrl", [("secretRef", "webhook-url")])] }
        Secrets :=
          [{ LocalName := "webhook-url"
             ResourceName := "projects/my-project-id/secrets/slack-webhook/versions/latest" }] } }

/-- The sample configuration with a secret resource that the getter does not
know. -/
def unknownSecretConfig : Config :=
  { Spec :=
      { sampleConfig.Spec with
        Secrets := [{ LocalName := "webhook-url", ResourceName := "projects/other/secrets/x" }] } }

/-- The sample configuration with a filter expression that does not
compile. -/
def badFilterConfig : Config :=
  { Spec :=
      { sampleConfig.Spec with
        Notification := { sampleConfig.Spec.Notification with Filter := "" } } }

/-- A notifier after an earlier successful setup. -/
def readyNotifier : slackNotifier :=
  { filter := some acceptAll, webhookURL := "https://hooks.slack.example.com/services/OLD" }

/-- A notifier whose filter accepts every build and whose webhook endpoint
answers HTTP 500. -/
def downNotifier : slackNotifier :=
  { filter := some acceptAll, webhookURL := "https://hooks.slack.example.com/services/DOWN" }

/-- The notifier of `TestWriteMessage`: `new(slackNotifier)`. -/
def testNotifier : slackNotifier := { filter := none, webhookURL := "" }

/-- The build of `TestWriteMessage`. -/
def testBuild : Build :=
  { ProjectId := "my-project-id"
    Id := "some-build-id"
    Status := Build_SUCCESS
    Steps := []
    LogUrl := "https://some.example.com/log/url?foo=bar"
    Substitutions :=
      [("SHORT_SHA", "1234"), ("BRANCH_NAME", "my-branch"), ("_PR_NUMBER", ""),
       ("REPO_NAME", "my-repo"), ("COMMIT_SHA", "sha1234")] }

/-- The annotated log URL that `TestWriteMessage` expects. -/
def testLogURL : String :=
  "https://some.example.com/log/url?foo=bar&utm_campaign=google-cloud-build-notifiers&utm_medium=chat&utm_source=google-cloud-build"

/-- The test build with status FAILURE and three steps, of which "build" and
"deploy" are in a bad status. -/
def failedBuild : Build :=
  { testBuild with
    Status := Build_FAILURE
    Steps :=
      [{ Name := "gcr.io/cloud-builders/git", Id := "fetch", Status := Build_SUCCESS },
       { Name := "gcr.io/cloud-builders/go", Id := "build", Status := Build_FAILURE },
       { Name := "gcr.io/cloud-builders/gcloud", Id := "deploy", Status := Build_TIMEOUT }] }

/-- The message that `writeMessage` gives for `failedBuild`. -/
def failedMessage : WebhookMessage :=
  { Attachments :=
      [{ Text := "Build for commit '1234' on branch 'my-branch' has failed build deploy"
         Color := "danger"
         Actions :=
           [{ Text := "View on GCB", Type_ := "button", URL := testLogURL },
            { Text := "View commit", Type_ := "button",
              URL := "https://github.com/flinkstech/my-repo/commit/sha1234" }] }] }

/-- The test build on branch "feature-x" with pull request number "42". -/
def prBuild : Build :=
  { testBuild with
    Substitutions :=
      [("SHORT_SHA", "1234"), ("BRANCH_NAME", "feature-x"), ("_PR_NUMBER", "42"),
       ("REPO_NAME", "my-repo"), ("COMMIT_SHA", "sha1234")] }

/-- The test build with a status outside the four that the `switch` names
(7, CANCELLED in the protobuf enumeration) and one successful step. -/
def cancelledBuild : Build :=
  { testBuild with
    Status := 7
    Steps := [{ Name := "gcr.io/cloud-builders/git", Id := "fetch", Status := Build_SUCCESS }] }

/-- The message that `writeMessage` gives for `cancelledBuild`. -/
def cancelledMessage : WebhookMessage :=
  { Attachments :=
      [{ Text := "Build for commit '1234' on branch 'my-branch' "
         Color := "warning"
         Actions :=
           [{ Text := "View on GCB", Type_ := "button", URL := testLogURL },
            { Text := "View commit", Type_ := "button",
              URL := "https://github.com/flinkstech/my-repo/commit/sha1234" }] }] }

/-- The test build on branch "master" with pull request number "42". -/
def masterBuild : Build :=
  { testBuild with
    Substitutions :=
      [("SHORT_SHA", "1234"), ("BRANCH_NAME", "master"), ("_PR_NUMBER", "42"),
       ("REPO_NAME", "my-repo"), ("COMMIT_SHA", "sha1234")] }

/-- The pull-request build with a log URL that holds a control character. -/
def badUrlBuild : Build :=
  { prBuild with LogUrl := "https://some.example.com/log\n/url" }

/-- The message that `writeMessage` gives for `testBuild`. -/
def testMessage : WebhookMessage :=
  { Attachments :=
      [{ Text := "Build for commit '1234' on branch 'my-branch' has succeeded"
         Color := "good"
         Actions :=
           [{ Text := "View on GCB", Type_ := "button", URL := testLogURL },
            { Text := "View commit", Type_ := "button",
              URL := "https://github.com/flinkstech/my-repo/commit/sha1234" }] }] }

/-- A build that agrees with `failedBuild` on what `writeMessage` reads and
differs in its ids, its step names, the order of its substitutions and one
more substitution key. -/
def otherFailedBuild : Build :=
  { ProjectId := "other-project-id"
    Id := "other-build-id"
    Status := Build_FAILURE
    Steps :=
      [{ Name := "alpine", Id := "fetch", Status := Build_SUCCESS },
       { Name := "golang", Id := "build", Status := Build_FAILURE },
       { Name := "gcloud", Id := "deploy", Status := Build_TIMEOUT }]
    LogUrl := "https://some.example.com/log/url?foo=bar"
    Substitutions :=
      [("TAG_NAME", "v1.0.0"), ("COMMIT_SHA", "sha1234"), ("REPO_NAME", "my-repo"),
       ("BRANCH_NAME", "my-branch"), ("SHORT_SHA", "1234")] }

/-- A notifier whose filter accepts successful builds only. -/
def successNotifier : slackNotifier :=
  { filter := some successOnly
    webhookURL := "https://hooks.slack.example.com/services/T000/B000/XXXX" }

/-- The test build without the `_PR_NUMBER` key. -/
def noPrKeyBuild : Build :=
  { testBuild with
    Substitutions :=
      [("SHORT_SHA", "1234"), ("BRANCH_NAME", "my-branch"),
       ("REPO_NAME", "my-repo"), ("COMMIT_SHA", "sha1234")] }

/-! ## Basic facts about the primitives -/

theorem Sprintf_txt (a b c : String) :
    Sprintf "Build for commit '%s' on branch '%s' %s" [a, b, c]
      = "Build for commit '" ++ a ++ "' on branch '" ++ b ++ "' " ++ c := by
  apply String.ext
  simp [Sprintf, fmtChars]

theorem Sprintf_step (a : String) : Sprintf " %s" [a] = " " ++ a := by
  apply String.ext
  simp [Sprintf, fmtChars]

theorem Sprintf_commit (a b c : String) :
    Sprintf "https://github.com/%s/%s/commit/%s" [a, b, c]
      = "https://github.com/" ++ a ++ "/" ++ b ++ "/commit/" ++ c := by
  apply String.ext
  simp [Sprintf, fmtChars]

theorem Errorf_utm (err : GoError) :
    Errorf "failed to add UTM params: %w" err
      = .wrapped ("failed to add UTM params: " ++ err.Error) err := by
  unfold Errorf
  congr 1
  apply String.ext
  simp [Sprintf, fmtChars]

theorem scanStatuses_eq (step : BuildStep) (vars : Option BuildStep × String) :
    scanStatuses step vars
      = if isBad step.Status then (some step, vars.2 ++ (" " ++ step.Id)) else vars := by
  simp only [scanStatuses, BAD_STATUSES, List.foldl, Sprintf_step, isBad,
    Build_FAILURE, Build_INTERNAL_ERROR, Build_TIMEOUT, decide_eq_true_eq]
  by_cases h4 : step.Status = 4
  · simp [h4]
  · by_cases h5 : step.Status = 5
    · simp [h5]
    · by_cases h6 : step.Status = 6
      · simp [h6]
      · simp [h4, h5, h6]

theorem String_join_cons (a : String) (l : List String) :
    String.join (a :: l) = a ++ String.join l := by
  apply String.ext
  simp

theorem String_append_empty (a : String) : a ++ "" = a := by
  apply String.ext
  simp

theorem scanSteps_snd (steps : List BuildStep) (vars : Option BuildStep × String) :
    (scanSteps steps vars).2 = vars.2 ++ failedStepIds steps := by
  induction steps generalizing vars with
  | nil => simp [scanSteps, failedStepIds, String.join, String_append_empty]
  | cons st rest ih =>
    have hstep : scanSteps (st :: rest) vars = scanSteps rest (scanStatuses st vars) := rfl
    rw [hstep, ih, scanStatuses_eq]
    by_cases hb : isBad st.Status
    · simp [hb, failedStepIds, List.filter_cons, String_join_cons, String.append_assoc]
    · simp [hb, failedStepIds, List.filter_cons]

/-! ## The three ways `writeMessage` can end -/

theorem writeMessage_error (env : Env) (s : slackNotifier) (build : Build) (err : GoError)
    (h : env.AddUTMParams build.LogUrl ChatMedium = .error err) :
    writeMessage env s build
      = .returned (none, some (.wrapped ("failed to add UTM params: " ++ err.Error) err)) := by
  simp only [writeMessage, h, Errorf_utm]

theorem writeMessage_fault (env : Env) (s : slackNotifier) (build : Build) (logURL : String)
    (h : env.AddUTMParams build.LogUrl ChatMedium = .ok logURL)
    (hbranch : index build.Substitutions "BRANCH_NAME" ≠ "master")
    (hpr : index build.Substitutions "_PR_NUMBER" ≠ "") :
    writeMessage env s build = .panicked .nilDereference := by
  simp [writeMessage, h, hbranch, hpr, storeThrough, Exec.bind]

theorem writeMessage_ok (env : Env) (s : slackNotifier) (build : Build) (logURL : String)
    (h : env.AddUTMParams build.LogUrl ChatMedium = .ok logURL)
    (hc : index build.Substitutions "BRANCH_NAME" = "master"
      ∨ index build.Substitutions "_PR_NUMBER" = "") :
    writeMessage env s build
      = .returned
          (some { Attachments :=
            [{ Text := headline build
                 ++ ((statusSwitch build.Status "").2 ++ failedStepIds build.Steps)
               Color := (statusSwitch build.Status "").1
               Actions := [viewOnGCB logURL, viewCommit build] }] },
           none) := by
  have hcond : ¬ (index build.Substitutions "BRANCH_NAME" ≠ "master"
      ∧ index build.Substitutions "_PR_NUMBER" ≠ "") := by
    rcases hc with hc | hc <;> simp [hc]
  have horg : ("https://github.com/" ++ "flinkstech" ++ "/" : String)
      = "https://github.com/flinkstech/" := by decide
  simp only [writeMessage, h, hcond, if_false, Exec.bind, Sprintf_txt, Sprintf_commit,
    scanSteps_snd, GH_ORG_NAME, headline, viewOnGCB, viewCommit, horg]

theorem statusSwitch_fst (status : Build_Status) :
    (statusSwitch status "").1
      = if status = Build_SUCCESS then "good"
        else if status = Build_FAILURE ∨ status = Build_INTERNAL_ERROR
          ∨ status = Build_TIMEOUT then "danger"
        else "warning" := by
  unfold statusSwitch
  split
  · rfl
  · split <;> rfl

theorem statusSwitch_snd (status : Build_Status) :
    (statusSwitch status "").2
      = if status = Build_SUCCESS then "has succeeded"
        else if status = Build_FAILURE ∨ status = Build_INTERNAL_ERROR
          ∨ status = Build_TIMEOUT then "has failed"
        else "" := by
  unfold statusSwitch
  split
  · rfl
  · split <;> rfl

theorem writeMessage_returned_some (env : Env) (s : slackNotifier) (build : Build)
    (msg : WebhookMessage) (e : Option GoError)
    (h : writeMessage env s build = .returned (some msg, e)) :
    ∃ logURL, env.AddUTMParams build.LogUrl ChatMedium = .ok logURL
      ∧ (index build.Substitutions "BRANCH_NAME" = "master"
          ∨ index build.Substitutions "_PR_NUMBER" = "")
      ∧ e = none
      ∧ msg = { Attachments :=
          [{ Text := headline build
               ++ ((statusSwitch build.Status "").2 ++ failedStepIds build.Steps)
             Color := (statusSwitch build.Status "").1
             Actions := [viewOnGCB logURL, viewCommit build] }] } := by
  cases hA : env.AddUTMParams build.LogUrl ChatMedium with
  | error err =>
    rw [writeMessage_error env s build err hA] at h
    simp at h
  | ok logURL =>
    by_cases hb : index build.Substitutions "BRANCH_NAME" = "master"
    · rw [writeMessage_ok env s build logURL hA (Or.inl hb)] at h
      simp only [Exec.returned.injEq, Prod.mk.injEq, Option.some.injEq] at h
      exact ⟨logURL, rfl, Or.inl hb, h.2.symm, h.1.symm⟩
    · by_cases hp : index build.Substitutions "_PR_NUMBER" = ""
      · rw [writeMessage_ok env s build logURL hA (Or.inr hp)] at h
        simp only [Exec.returned.injEq, Prod.mk.injEq, Option.some.injEq] at h
        exact ⟨logURL, rfl, Or.inr hp, h.2.symm, h.1.symm⟩
      · rw [writeMessage_fault env s build logURL hA hb hp] at h
        simp at h

theorem failedStepIds_of_no_bad (steps : List BuildStep)
    (h : ∀ st ∈ steps, isBad st.Status = false) : failedStepIds steps = "" := by
  have hf : steps.filter (fun st => isBad st.Status) = [] := by
    rw [List.filter_eq_nil_iff]
    intro st hst
    simp [h st hst]
  simp [failedStepIds, hf, String.join]

theorem index_of_lookup_some (m : List (String × String)) (key v : String)
    (h : m.lookup key = some v) : index m key = v := by
  simp [index, h]

theorem index_of_lookup_none (m : List (String × String)) (key : String)
    (h : m.lookup key = none) : index m key = "" := by
  simp [index, h]

/-! ## The claims -/

/-- C1: whenever `writeMessage` returns a message, it has one attachment and
the attachment's color depends on the build status only: "good" for SUCCESS,
"danger" for FAILURE, INTERNAL_ERROR and TIMEOUT, "warning" for every other
status, whatever the steps, substitutions and log URL are. -/
theorem writeMessage_color (env : Env) (s : slackNotifier) (build : Build)
    (msg : WebhookMessage) (e : Option GoError)
    (h : writeMessage env s build = .returned (some msg, e)) :
    ∃ att, msg.Attachments = [att]
      ∧ att.Color
          = if build.Status = Build_SUCCESS then "good"
            else if build.Status = Build_FAILURE ∨ build.Status = Build_INTERNAL_ERROR
              ∨ build.Status = Build_TIMEOUT then "danger"
            else "warning" := by
  obtain ⟨logURL, -, -, -, hmsg⟩ := writeMessage_returned_some env s build msg e h
  subst hmsg
  exact ⟨_, rfl, statusSwitch_fst build.Status⟩

/-- Witness for C1: the failed sample build returns a message whose color is
"danger". -/
theorem writeMessage_color_witness :
    writeMessage sampleEnv testNotifier failedBuild = .returned (some failedMessage, none)
      ∧ ∃ att, failedMessage.Attachments = [att] ∧ att.Color = "danger" :=
  ⟨by decide,
   writeMessage_color sampleEnv testNotifier failedBuild failedMessage none (by decide)⟩

/-- C2 (the code faults): when the log URL is annotated successfully, the
branch is not "master" and `_PR_NUMBER` is non-empty, `writeMessage` stores
through the nil pointer `pr` and returns no message at all, so no attachment
with a "View PR" action is produced. -/
theorem writeMessage_no_message_when_pr (env : Env) (s : slackNotifier) (build : Build)
    (logURL : String)
    (h : env.AddUTMParams build.LogUrl ChatMedium = .ok logURL)
    (hbranch : index build.Substitutions "BRANCH_NAME" ≠ "master")
    (hpr : index build.Substitutions "_PR_NUMBER" ≠ "") :
    ¬ ∃ (msg : WebhookMessage) (e : Option GoError),
      writeMessage env s build = .returned (some msg, e) := by
  rintro ⟨msg, e, hret⟩
  rw [writeMessage_fault env s build logURL h hbranch hpr] at hret
  simp at hret

/-- Witness for C2: the sample pull-request build, whose log URL the sample
annotation function accepts. -/
theorem writeMessage_no_message_when_pr_witness :
    sampleEnv.AddUTMParams prBuild.LogUrl ChatMedium = .ok testLogURL
      ∧ ¬ ∃ (msg : WebhookMessage) (e : Option GoError),
        writeMessage sampleEnv testNotifier prBuild = .returned (some msg, e) :=
  ⟨rfl,
   writeMessage_no_message_when_pr sampleEnv testNotifier prBuild testLogURL
    rfl (by decide) (by decide)⟩

/-- C3 (the code faults): when the log URL is annotated successfully, the
branch is not "master" and `_PR_NUMBER` is non-empty, `writeMessage` ends in a
nil-pointer dereference instead of returning a message. -/
theorem writeMessage_nil_dereference (env : Env) (s : slackNotifier) (build : Build)
    (logURL : String)
    (h : env.AddUTMParams build.LogUrl ChatMedium = .ok logURL)
    (hbranch : index build.Substitutions "BRANCH_NAME" ≠ "master")
    (hpr : index build.Substitutions "_PR_NUMBER" ≠ "") :
    writeMessage env s build = .panicked .nilDereference :=
  writeMessage_fault env s build logURL h hbranch hpr

/-- Witness for C3: the sample pull-request build. -/
theorem writeMessage_nil_dereference_witness :
    sampleEnv.AddUTMParams prBuild.LogUrl ChatMedium = .ok testLogURL
      ∧ writeMessage sampleEnv testNotifier prBuild = .panicked .nilDereference :=
  ⟨rfl,
   writeMessage_nil_dereference sampleEnv testNotifier prBuild testLogURL
    rfl (by decide) (by decide)⟩

/-- C4: when no step is in status FAILURE, INTERNAL_ERROR or TIMEOUT and
`writeMessage` returns a message, the attachment text is the headline "Build
for commit '<SHORT_SHA>' on branch '<BRANCH_NAME>' " followed by "has
succeeded" for SUCCESS, "has failed" for FAILURE, INTERNAL_ERROR and TIMEOUT,
and nothing for every other status. -/
theorem writeMessage_text_base (env : Env) (s : slackNotifier) (build : Build)
    (msg : WebhookMessage) (e : Option GoError)
    (hsteps : ∀ st ∈ build.Steps, st.Status ≠ Build_FAILURE
      ∧ st.Status ≠ Build_INTERNAL_ERROR ∧ st.Status ≠ Build_TIMEOUT)
    (h : writeMessage env s build = .returned (some msg, e)) :
    ∃ att, msg.Attachments = [att]
      ∧ att.Text
          = "Build for commit '" ++ index build.Substitutions "SHORT_SHA"
            ++ "' on branch '" ++ index build.Substitutions "BRANCH_NAME" ++ "' "
            ++ (if build.Status = Build_SUCCESS then "has succeeded"
                else if build.Status = Build_FAILURE ∨ build.Status = Build_INTERNAL_ERROR
                  ∨ build.Status = Build_TIMEOUT then "has failed"
                else "") := by
  obtain ⟨logURL, -, -, -, hmsg⟩ := writeMessage_returned_some env s build msg e h
  subst hmsg
  refine ⟨_, rfl, ?_⟩
  have hnone : failedStepIds build.Steps = "" := by
    apply failedStepIds_of_no_bad
    intro st hst
    obtain ⟨h1, h2, h3⟩ := hsteps st hst
    simp [isBad, h1, h2, h3]
  simp only [hnone, String_append_empty, statusSwitch_snd, headline]

/-- Witness for C4: a cancelled build with one successful step; its text ends
with the space after the branch name. -/
theorem writeMessage_text_base_witness :
    writeMessage sampleEnv testNotifier cancelledBuild
        = .returned (some cancelledMessage, none)
      ∧ ∃ att, cancelledMessage.Attachments = [att]
        ∧ att.Text = "Build for commit '1234' on branch 'my-branch' " :=
  ⟨by decide,
   writeMessage_text_base sampleEnv testNotifier cancelledBuild cancelledMessage none
    (by decide) (by decide)⟩

/-- C5: whenever `writeMessage` returns a message, the same build with an
empty step list also gives a message, and the text is that message's text
followed by " " and the step id for each step, in order, whose status is
FAILURE, INTERNAL_ERROR or TIMEOUT; other steps add nothing. -/
theorem writeMessage_text_steps (env : Env) (s : slackNotifier) (build : Build)
    (msg : WebhookMessage) (e : Option GoError)
    (h : writeMessage env s build = .returned (some msg, e)) :
    ∃ att att0,
      msg.Attachments = [att]
      ∧ writeMessage env s { build with Steps := [] }
          = .returned (some { Attachments := [att0] }, none)
      ∧ att.Text
          = att0.Text
            ++ String.join
                ((build.Steps.filter fun st =>
                    decide (st.Status = Build_FAILURE ∨ st.Status = Build_INTERNAL_ERROR
                      ∨ st.Status = Build_TIMEOUT)).map
                  fun st => " " ++ st.Id) := by
  obtain ⟨logURL, hA, hc, -, hmsg⟩ := writeMessage_returned_some env s build msg e h
  subst hmsg
  refine ⟨_, _, rfl, writeMessage_ok env s { build with Steps := [] } logURL hA hc, ?_⟩
  have hnil : failedStepIds [] = "" := by decide
  simp only [hnil, String_append_empty, headline, String.append_assoc]
  rfl

/-- Witness for C5: status FAILURE with steps "fetch" (SUCCESS), "build"
(FAILURE) and "deploy" (TIMEOUT) gives a text ending in "has failed build
deploy". -/
theorem writeMessage_text_steps_witness :
    writeMessage sampleEnv testNotifier failedBuild = .returned (some failedMessage, none)
      ∧ ∃ att att0 : Attachment,
        failedMessage.Attachments = [att]
        ∧ writeMessage sampleEnv testNotifier { failedBuild with Steps := [] }
            = .returned (some { Attachments := [att0] }, none)
        ∧ att.Text = att0.Text ++ String.join [" " ++ "build", " " ++ "deploy"] :=
  ⟨by decide,
   writeMessage_text_steps sampleEnv testNotifier failedBuild failedMessage none (by decide)⟩

/-- C6: when the log URL is annotated successfully and the branch is "master"
or `_PR_NUMBER` is empty or absent, `writeMessage` returns a message whose
attachment has exactly two actions, in this order: "View on GCB" (a button
with the annotated log URL) and "View commit" (a button with
`https://github.com/flinkstech/<REPO_NAME>/commit/<COMMIT_SHA>`). -/
theorem writeMessage_two_actions (env : Env) (s : slackNotifier) (build : Build)
    (logURL : String)
    (h : env.AddUTMParams build.LogUrl ChatMedium = .ok logURL)
    (hc : build.Substitutions.lookup "BRANCH_NAME" = some "master"
      ∨ build.Substitutions.lookup "_PR_NUMBER" = some ""
      ∨ build.Substitutions.lookup "_PR_NUMBER" = none) :
    ∃ att, writeMessage env s build = .returned (some { Attachments := [att] }, none)
      ∧ att.Actions
          = [{ Text := "View on GCB", Type_ := "button", URL := logURL },
             { Text := "View commit", Type_ := "button",
               URL := "https://github.com/flinkstech/"
                 ++ index build.Substitutions "REPO_NAME" ++ "/commit/"
                 ++ index build.Substitutions "COMMIT_SHA" }] := by
  have hc2 : index build.Substitutions "BRANCH_NAME" = "master"
      ∨ index build.Substitutions "_PR_NUMBER" = "" := by
    rcases hc with hc | hc | hc
    · exact Or.inl (index_of_lookup_some _ _ _ hc)
    · exact Or.inr (index_of_lookup_some _ _ _ hc)
    · exact Or.inr (index_of_lookup_none _ _ hc)
  exact ⟨_, writeMessage_ok env s build logURL h hc2, rfl⟩

/-- Witness for C6: a build on "master" that carries a pull request number. -/
theorem writeMessage_two_actions_witness :
    ∃ att : Attachment,
      writeMessage sampleEnv testNotifier masterBuild
        = .returned (some { Attachments := [att] }, none)
      ∧ att.Actions
          = [{ Text := "View on GCB", Type_ := "button", URL := testLogURL },
             { Text := "View commit", Type_ := "button",
               URL := "https://github.com/flinkstech/"
                 ++ index masterBuild.Substitutions "REPO_NAME" ++ "/commit/"
                 ++ index masterBuild.Substitutions "COMMIT_SHA" }] :=
  writeMessage_two_actions sampleEnv testNotifier masterBuild testLogURL rfl
    (Or.inl (by decide))

/-- C7 (the code faults): on the scenario build (branch "feature-x",
`_PR_NUMBER` "42", repository "my-repo"), for every annotation function that
accepts its log URL, `writeMessage` ends in a nil-pointer dereference; no
three-action list is returned. -/
theorem writeMessage_pr_scenario (env : Env) (s : slackNotifier) (logURL : String)
    (h : env.AddUTMParams prBuild.LogUrl ChatMedium = .ok logURL) :
    writeMessage env s prBuild = .panicked .nilDereference :=
  writeMessage_fault env s prBuild logURL h (by decide) (by decide)

/-- Witness for C7: the sample annotation function accepts the log URL. -/
theorem writeMessage_pr_scenario_witness :
    sampleEnv.AddUTMParams prBuild.LogUrl ChatMedium = .ok testLogURL
      ∧ writeMessage sampleEnv testNotifier prBuild = .panicked .nilDereference :=
  ⟨rfl, writeMessage_pr_scenario sampleEnv testNotifier testLogURL rfl⟩

/-- C8 (the code differs from its test): on the build of `TestWriteMessage`,
for every annotation function that accepts its log URL, `writeMessage`
returns one attachment whose text is "Build for commit '1234' on branch
'my-branch' has succeeded"; the text that the test expects, with "of repo
`my-repo`" before the status phrase, is not produced. -/
theorem writeMessage_test_text (env : Env) (s : slackNotifier) (logURL : String)
    (h : env.AddUTMParams testBuild.LogUrl ChatMedium = .ok logURL) :
    ∃ att, writeMessage env s testBuild = .returned (some { Attachments := [att] }, none)
      ∧ att.Text = "Build for commit '1234' on branch 'my-branch' has succeeded"
      ∧ att.Text
          ≠ "Build for commit '1234' on branch 'my-branch' of repo `my-repo` has succeeded" := by
  refine ⟨_, writeMessage_ok env s testBuild logURL h (Or.inr (by decide)), ?_, ?_⟩
  · show headline testBuild
        ++ ((statusSwitch testBuild.Status "").2 ++ failedStepIds testBuild.Steps)
      = "Build for commit '1234' on branch 'my-branch' has succeeded"
    decide
  · show headline testBuild
        ++ ((statusSwitch testBuild.Status "").2 ++ failedStepIds testBuild.Steps)
      ≠ "Build for commit '1234' on branch 'my-branch' of repo `my-repo` has succeeded"
    decide

/-- Witness for C8: the sample annotation function accepts the test's log
URL. -/
theorem writeMessage_test_text_witness :
    ∃ att : Attachment,
      writeMessage sampleEnv testNotifier testBuild
        = .returned (some { Attachments := [att] }, none)
      ∧ att.Text = "Build for commit '1234' on branch 'my-branch' has succeeded"
      ∧ att.Text
          ≠ "Build for commit '1234' on branch 'my-branch' of repo `my-repo` has succeeded" :=
  writeMessage_test_text sampleEnv testNotifier testLogURL rfl

/-- C9: whenever `writeMessage` returns a message, the message has exactly one
attachment, and that attachment carries the computed text (headline, status
phrase and failed step ids), the computed color and the computed action
list. -/
theorem writeMessage_one_attachment (env : Env) (s : slackNotifier) (build : Build)
    (msg : WebhookMessage) (e : Option GoError)
    (h : writeMessage env s build = .returned (some msg, e)) :
    msg.Attachments.length = 1
      ∧ ∃ logURL, env.AddUTMParams build.LogUrl ChatMedium = .ok logURL
        ∧ msg.Attachments
            = [{ Text :=
                   Sprintf "Build for commit '%s' on branch '%s' %s"
                     [index build.Substitutions "SHORT_SHA",
                      index build.Substitutions "BRANCH_NAME",
                      (if build.Status = Build_SUCCESS then "has succeeded"
                       else if build.Status = Build_FAILURE
                         ∨ build.Status = Build_INTERNAL_ERROR
                         ∨ build.Status = Build_TIMEOUT then "has failed"
                       else "")
                      ++ String.join
                          ((build.Steps.filter fun st =>
                              decide (st.Status = Build_FAILURE
                                ∨ st.Status = Build_INTERNAL_ERROR
                                ∨ st.Status = Build_TIMEOUT)).map
                            fun st => " " ++ st.Id)]
                 Color :=
                   if build.Status = Build_SUCCESS then "good"
                   else if build.Status = Build_FAILURE
                     ∨ build.Status = Build_INTERNAL_ERROR
                     ∨ build.Status = Build_TIMEOUT then "danger"
                   else "warning"
                 Actions :=
                   [{ Text := "View on GCB", Type_ := "button", URL := logURL },
                    { Text := "View commit", Type_ := "button",
                      URL := "https://github.com/flinkstech/"
                        ++ index build.Substitutions "REPO_NAME" ++ "/commit/"
                        ++ index build.Substitutions "COMMIT_SHA" }] }] := by
  obtain ⟨logURL, hA, -, -, hmsg⟩ := writeMessage_returned_some env s build msg e h
  subst hmsg
  refine ⟨rfl, logURL, hA, ?_⟩
  simp only [Sprintf_txt, statusSwitch_fst, statusSwitch_snd, headline]
  rfl

/-- Witness for C9: the failed sample build. -/
theorem writeMessage_one_attachment_witness :
    writeMessage sampleEnv testNotifier failedBuild = .returned (some failedMessage, none)
      ∧ failedMessage.Attachments.length = 1 :=
  ⟨by decide,
   (writeMessage_one_attachment sampleEnv testNotifier failedBuild failedMessage none
      (by decide)).1⟩

/-- C10: when the annotation function rejects the log URL, `writeMessage`
returns a nil message together with an error that wraps the annotation error
under the context "failed to add UTM params", whatever the status, steps and
substitutions are (also when the pull-request condition holds). -/
theorem writeMessage_annotation_error (env : Env) (s : slackNotifier) (build : Build)
    (err : GoError)
    (h : env.AddUTMParams build.LogUrl ChatMedium = .error err) :
    ∃ e, writeMessage env s build = .returned (none, some e)
      ∧ e.Unwrap = some err
      ∧ e.Error = "failed to add UTM params: " ++ err.Error :=
  ⟨_, writeMessage_error env s build err h, rfl, rfl⟩

/-- Witness for C10: a pull-request build whose log URL holds a control
character. -/
theorem writeMessage_annotation_error_witness :
    (index badUrlBuild.Substitutions "BRANCH_NAME" ≠ "master"
        ∧ index badUrlBuild.Substitutions "_PR_NUMBER" ≠ "")
      ∧ ∃ e, writeMessage sampleEnv testNotifier badUrlBuild = .returned (none, some e)
        ∧ e.Unwrap = some (.leaf "net/url: invalid control character in URL")
        ∧ e.Error
            = "failed to add UTM params: "
              ++ GoError.Error (.leaf "net/url: invalid control character in URL") :=
  ⟨by decide,
   writeMessage_annotation_error sampleEnv testNotifier badUrlBuild
    (.leaf "net/url: invalid control character in URL") rfl⟩

/-! ## What `writeMessage` reads -/

theorem failedStepIds_eq_pairs (steps : List BuildStep) :
    failedStepIds steps
      = String.join
          (((steps.map fun st => (st.Id, st.Status)).filter fun pr => isBad pr.2).map
            fun pr => " " ++ pr.1) := by
  simp [failedStepIds, List.filter_map, List.map_map, Function.comp_def]

theorem failedStepIds_congr (steps1 steps2 : List BuildStep)
    (h : (steps1.map fun st => (st.Id, st.Status)) = steps2.map fun st => (st.Id, st.Status)) :
    failedStepIds steps1 = failedStepIds steps2 := by
  rw [failedStepIds_eq_pairs, failedStepIds_eq_pairs, h]

theorem writeMessage_congr (env : Env) (s1 s2 : slackNotifier) (b1 b2 : Build)
    (hstatus : b1.Status = b2.Status)
    (hsteps : (b1.Steps.map fun st => (st.Id, st.Status))
      = b2.Steps.map fun st => (st.Id, st.Status))
    (hlog : b1.LogUrl = b2.LogUrl)
    (hsha : index b1.Substitutions "SHORT_SHA" = index b2.Substitutions "SHORT_SHA")
    (hbranch : index b1.Substitutions "BRANCH_NAME" = index b2.Substitutions "BRANCH_NAME")
    (hpr : index b1.Substitutions "_PR_NUMBER" = index b2.Substitutions "_PR_NUMBER")
    (hrepo : index b1.Substitutions "REPO_NAME" = index b2.Substitutions "REPO_NAME")
    (hcommit : index b1.Substitutions "COMMIT_SHA" = index b2.Substitutions "COMMIT_SHA") :
    writeMessage env s1 b1 = writeMessage env s2 b2 := by
  have hids := failedStepIds_congr b1.Steps b2.Steps hsteps
  cases hA : env.AddUTMParams b1.LogUrl ChatMedium with
  | error err =>
    rw [writeMessage_error env s1 b1 err hA, writeMessage_error env s2 b2 err (hlog ▸ hA)]
  | ok logURL =>
    by_cases hc : index b1.Substitutions "BRANCH_NAME" = "master"
        ∨ index b1.Substitutions "_PR_NUMBER" = ""
    · rw [writeMessage_ok env s1 b1 logURL hA hc,
        writeMessage_ok env s2 b2 logURL (hlog ▸ hA) (hbranch ▸ hpr ▸ hc)]
      simp only [headline, viewCommit, hsha, hbranch, hrepo, hcommit, hstatus, hids]
    · rw [not_or] at hc
      rw [writeMessage_fault env s1 b1 logURL hA hc.1 hc.2,
        writeMessage_fault env s2 b2 logURL (hlog ▸ hA) (hbranch ▸ hc.1) (hpr ▸ hc.2)]

theorem index_eq_of_absent_or_empty (m1 m2 : List (String × String)) (key : String)
    (habsent : m1.lookup key = none) (hempty : m2.lookup key = some "")
    (hother : ∀ k, k ≠ key → m1.lookup k = m2.lookup k) (k : String) :
    index m1 k = index m2 k := by
  by_cases hk : k = key
  · subst hk
    simp [index, habsent, hempty]
  · simp [index, hother k hk]

/-- C11: a substitution key that is missing from the map reads like the key
mapped to the empty string: when two maps differ only in that one lacks a key
and the other maps it to "", `writeMessage` gives the same result on both,
for every build and every key (SHORT_SHA, BRANCH_NAME, _PR_NUMBER, REPO_NAME
and COMMIT_SHA among them). -/
theorem writeMessage_missing_key (env : Env) (s : slackNotifier) (build : Build)
    (key : String) (m1 m2 : List (String × String))
    (habsent : m1.lookup key = none) (hempty : m2.lookup key = some "")
    (hother : ∀ k, k ≠ key → m1.lookup k = m2.lookup k) :
    writeMessage env s { build with Substitutions := m1 }
      = writeMessage env s { build with Substitutions := m2 } :=
  writeMessage_congr env s s _ _ rfl rfl rfl
    (index_eq_of_absent_or_empty m1 m2 key habsent hempty hother _)
    (index_eq_of_absent_or_empty m1 m2 key habsent hempty hother _)
    (index_eq_of_absent_or_empty m1 m2 key habsent hempty hother _)
    (index_eq_of_absent_or_empty m1 m2 key habsent hempty hother _)
    (index_eq_of_absent_or_empty m1 m2 key habsent hempty hother _)

/-- Witness for C11: the build of the test without the `_PR_NUMBER` key and
with the key mapped to "". -/
theorem writeMessage_missing_key_witness :
    noPrKeyBuild.Substitutions.lookup "_PR_NUMBER" = none
      ∧ testBuild.Substitutions.lookup "_PR_NUMBER" = some ""
      ∧ writeMessage sampleEnv testNotifier noPrKeyBuild
          = writeMessage sampleEnv testNotifier testBuild :=
  ⟨by decide, by decide,
   writeMessage_missing_key sampleEnv testNotifier testBuild "_PR_NUMBER"
    noPrKeyBuild.Substitutions testBuild.Substitutions (by decide) (by decide)
    (by
      intro k hk
      simp only [noPrKeyBuild, testBuild, List.lookup_cons]
      have hk2 : (k == "_PR_NUMBER") = false := by simpa using hk
      simp [hk2])⟩

/-! ## The error messages of `SetUp` and `SendNotification` -/

theorem Errorf_cel (err : GoError) :
    Errorf "failed to make a CEL predicate: %w" err
      = .wrapped ("failed to make a CEL predicate: " ++ err.Error) err := by
  unfold Errorf
  congr 1
  apply String.ext
  simp [Sprintf, fmtChars]

theorem ErrorfArgs_ref (delivery field : String) (err : GoError) :
    ErrorfArgs "failed to get Secret ref from delivery config (%v) field %q: %w"
        [delivery, field] err
      = .wrapped ("failed to get Secret ref from delivery config (" ++ delivery
          ++ ") field " ++ field ++ ": " ++ err.Error) err := by
  unfold ErrorfArgs
  congr 1
  apply String.ext
  simp [Sprintf, fmtChars]

theorem ErrorfArgs_find (ref : String) (err : GoError) :
    ErrorfArgs "failed to find Secret for ref %q: %w" [ref] err
      = .wrapped ("failed to find Secret for ref " ++ ref ++ ": " ++ err.Error) err := by
  unfold ErrorfArgs
  congr 1
  apply String.ext
  simp [Sprintf, fmtChars]

theorem Errorf_token (err : GoError) :
    Errorf "failed to get token secret: %w" err
      = .wrapped ("failed to get token secret: " ++ err.Error) err := by
  unfold Errorf
  congr 1
  apply String.ext
  simp [Sprintf, fmtChars]

theorem Errorf_write (err : GoError) :
    Errorf "failed to write Slack message: %w" err
      = .wrapped ("failed to write Slack message: " ++ err.Error) err := by
  unfold Errorf
  congr 1
  apply String.ext
  simp [Sprintf, fmtChars]

/-! ## The five ways `SetUp` can end -/

theorem SetUp_cel_error (env : Env) (s : slackNotifier) (cfg : Config) (sg : SecretGetter)
    (err : GoError)
    (h1 : env.MakeCELPredicate cfg.Spec.Notification.Filter = .error err) :
    SetUp env s cfg sg
      = (some (.wrapped ("failed to make a CEL predicate: " ++ err.Error) err), s) := by
  simp only [SetUp, h1, Errorf_cel]

theorem SetUp_ref_error (env : Env) (s : slackNotifier) (cfg : Config) (sg : SecretGetter)
    (prd : EventFilter) (err : GoError)
    (h1 : env.MakeCELPredicate cfg.Spec.Notification.Filter = .ok prd)
    (h2 : env.GetSecretRef cfg.Spec.Notification.Delivery webhookURLSecretName = .error err) :
    SetUp env s cfg sg
      = (some (.wrapped ("failed to get Secret ref from delivery config ("
            ++ env.FormatV cfg.Spec.Notification.Delivery ++ ") field "
            ++ env.FormatQ "webhookUrl" ++ ": " ++ err.Error) err),
         { s with filter := some prd }) := by
  simp only [SetUp, h1, h2, ErrorfArgs_ref]
  rfl

theorem SetUp_find_error (env : Env) (s : slackNotifier) (cfg : Config) (sg : SecretGetter)
    (prd : EventFilter) (wuRef : String) (err : GoError)
    (h1 : env.MakeCELPredicate cfg.Spec.Notification.Filter = .ok prd)
    (h2 : env.GetSecretRef cfg.Spec.Notification.Delivery webhookURLSecretName = .ok wuRef)
    (h3 : env.FindSecretResourceName cfg.Spec.Secrets wuRef = .error err) :
    SetUp env s cfg sg
      = (some (.wrapped ("failed to find Secret for ref " ++ env.FormatQ wuRef ++ ": "
            ++ err.Error) err),
         { s with filter := some prd }) := by
  simp only [SetUp, h1, h2, h3, ErrorfArgs_find]

theorem SetUp_secret_error (env : Env) (s : slackNotifier) (cfg : Config) (sg : SecretGetter)
    (prd : EventFilter) (wuRef wuResource : String) (err : GoError)
    (h1 : env.MakeCELPredicate cfg.Spec.Notification.Filter = .ok prd)
    (h2 : env.GetSecretRef cfg.Spec.Notification.Delivery webhookURLSecretName = .ok wuRef)
    (h3 : env.FindSecretResourceName cfg.Spec.Secrets wuRef = .ok wuResource)
    (h4 : sg.GetSecret wuResource = .error err) :
    SetUp env s cfg sg
      = (some (.wrapped ("failed to get token secret: " ++ err.Error) err),
         { s with filter := some prd }) := by
  simp only [SetUp, h1, h2, h3, h4, Errorf_token]

theorem SetUp_ok (env : Env) (s : slackNotifier) (cfg : Config) (sg : SecretGetter)
    (prd : EventFilter) (wuRef wuResource wu : String)
    (h1 : env.MakeCELPredicate cfg.Spec.Notification.Filter = .ok prd)
    (h2 : env.GetSecretRef cfg.Spec.Notification.Delivery webhookURLSecretName = .ok wuRef)
    (h3 : env.FindSecretResourceName cfg.Spec.Secrets wuRef = .ok wuResource)
    (h4 : sg.GetSecret wuResource = .ok wu) :
    SetUp env s cfg sg = (none, { filter := some prd, webhookURL := wu }) := by
  simp only [SetUp, h1, h2, h3, h4]

/-! ## The ways `SendNotification` can end -/

theorem SendNotification_skip (env : Env) (s : slackNotifier) (build : Build)
    (filter : EventFilter) (hf : s.filter = some filter) (hno : filter.Apply build = false) :
    SendNotification env s build = (.returned none, []) := by
  simp [SendNotification, hf, hno]

theorem SendNotification_write_failed (env : Env) (s : slackNotifier) (build : Build)
    (filter : EventFilter) (msg : Option WebhookMessage) (err : GoError)
    (hf : s.filter = some filter) (hyes : filter.Apply build = true)
    (hw : writeMessage env s build = .returned (msg, some err)) :
    SendNotification env s build
      = (.returned (some (.wrapped ("failed to write Slack message: " ++ err.Error) err)),
         [.Infof "sending Slack webhook for Build %q (status: %q)" build.Id build.Status,
          .AddUTMParams build.LogUrl ChatMedium]) := by
  simp [SendNotification, hf, hyes, hw, Errorf_write]

theorem SendNotification_posted (env : Env) (s : slackNotifier) (build : Build)
    (filter : EventFilter) (msg : Option WebhookMessage)
    (hf : s.filter = some filter) (hyes : filter.Apply build = true)
    (hw : writeMessage env s build = .returned (msg, none)) :
    SendNotification env s build
      = (.returned (env.PostWebhook s.webhookURL msg),
         [.Infof "sending Slack webhook for Build %q (status: %q)" build.Id build.Status,
          .AddUTMParams build.LogUrl ChatMedium,
          .PostWebhook s.webhookURL msg]) := by
  simp [SendNotification, hf, hyes, hw]

theorem SendNotification_faulted (env : Env) (s : slackNotifier) (build : Build)
    (filter : EventFilter) (fault : RuntimeFault)
    (hf : s.filter = some filter) (hyes : filter.Apply build = true)
    (hw : writeMessage env s build = .panicked fault) :
    SendNotification env s build
      = (.panicked fault,
         [.Infof "sending Slack webhook for Build %q (status: %q)" build.Id build.Status,
          .AddUTMParams build.LogUrl ChatMedium]) := by
  simp [SendNotification, hf, hyes, hw]

/-! ## The claims about `SendNotification` and `SetUp` -/

/-- C12: when the filter returns false on a build, `SendNotification` returns
nil and makes no call at all: no log line, no URL annotation (no message is
built) and no webhook delivery. -/
theorem SendNotification_filtered_out (env : Env) (s : slackNotifier) (build : Build)
    (filter : EventFilter) (hf : s.filter = some filter) (hno : filter.Apply build = false) :
    SendNotification env s build = (.returned none, []) :=
  SendNotification_skip env s build filter hf hno

/-- Witness for C12: a failed build and a filter that accepts successful
builds only. -/
theorem SendNotification_filtered_out_witness :
    successOnly.Apply failedBuild = false
      ∧ SendNotification sampleEnv successNotifier failedBuild = (.returned none, []) :=
  ⟨by decide,
   SendNotification_filtered_out sampleEnv successNotifier failedBuild successOnly rfl
    (by decide)⟩

/-- C13: when the filter returns true and `writeMessage` returns a message
`m`, `SendNotification` makes exactly one webhook delivery call, with the
notifier's `webhookURL` and `m`, after the log line and the annotation call,
and returns that call's result: nil when delivery succeeds, the delivery error
when it fails; there is no second attempt. -/
theorem SendNotification_delivers_once (env : Env) (s : slackNotifier) (build : Build)
    (filter : EventFilter) (m : WebhookMessage) (e : Option GoError)
    (hf : s.filter = some filter) (hyes : filter.Apply build = true)
    (hw : writeMessage env s build = .returned (some m, e)) :
    SendNotification env s build
      = (.returned (env.PostWebhook s.webhookURL (some m)),
         [.Infof "sending Slack webhook for Build %q (status: %q)" build.Id build.Status,
          .AddUTMParams build.LogUrl ChatMedium,
          .PostWebhook s.webhookURL (some m)]) := by
  obtain ⟨_, -, -, he, -⟩ := writeMessage_returned_some env s build m e hw
  subst he
  exact SendNotification_posted env s build filter (some m) hf hyes hw

/-- Witness for C13: the build of the test is delivered once to the stored
webhook URL. -/
theorem SendNotification_delivers_once_witness :
    writeMessage sampleEnv readyNotifier testBuild = .returned (some testMessage, none)
      ∧ SendNotification sampleEnv readyNotifier testBuild
        = (.returned none,
           [.Infof "sending Slack webhook for Build %q (status: %q)" "some-build-id" 3,
            .AddUTMParams "https://some.example.com/log/url?foo=bar" "chat",
            .PostWebhook "https://hooks.slack.example.com/services/OLD" (some testMessage)]) :=
  ⟨by decide,
   SendNotification_delivers_once sampleEnv readyNotifier testBuild acceptAll testMessage none
    rfl rfl (by decide)⟩

/-- C14: when the filter returns true and `writeMessage` returns an error,
`SendNotification` returns an error (the cause wrapped under "failed to write
Slack message") and makes no webhook delivery call. -/
theorem SendNotification_drops_on_write_error (env : Env) (s : slackNotifier)
    (build : Build) (filter : EventFilter) (msg : Option WebhookMessage) (err : GoError)
    (hf : s.filter = some filter) (hyes : filter.Apply build = true)
    (hw : writeMessage env s build = .returned (msg, some err)) :
    ∃ e, (SendNotification env s build).1 = .returned (some e)
      ∧ e.Unwrap = some err
      ∧ ∀ url m, Call.PostWebhook url m ∉ (SendNotification env s build).2 := by
  rw [SendNotification_write_failed env s build filter msg err hf hyes hw]
  exact ⟨_, rfl, rfl, by simp⟩

/-- Witness for C14: a build whose log URL the annotation function rejects. -/
theorem SendNotification_drops_on_write_error_witness :
    ∃ e, (SendNotification sampleEnv readyNotifier badUrlBuild).1 = .returned (some e)
      ∧ e.Unwrap
          = some (.wrapped
              "failed to add UTM params: net/url: invalid control character in URL"
              (.leaf "net/url: invalid control character in URL"))
      ∧ ∀ url m,
          Call.PostWebhook url m ∉ (SendNotification sampleEnv readyNotifier badUrlBuild).2 :=
  SendNotification_drops_on_write_error sampleEnv readyNotifier badUrlBuild acceptAll none
    (.wrapped "failed to add UTM params: net/url: invalid control character in URL"
      (.leaf "net/url: invalid control character in URL"))
    rfl rfl (by decide)

/-- Where the returned errors come from: every error that `SetUp` returns wraps
the error of the step that failed under a context naming that step (predicate
compilation, secret reference lookup, secret resource lookup, secret
retrieval), and so does the error that `SendNotification` returns when message
writing fails; an error of the webhook delivery is the value that
`PostWebhook` returned. -/
theorem errors_carry_context (env : Env) (s : slackNotifier) (cfg : Config)
    (sg : SecretGetter) (build : Build) :
    (∀ e, (SetUp env s cfg sg).1 = some e →
      ∃ cause, e.Unwrap = some cause
        ∧ ((env.MakeCELPredicate cfg.Spec.Notification.Filter = .error cause
              ∧ e.Error = "failed to make a CEL predicate: " ++ cause.Error)
          ∨ (env.GetSecretRef cfg.Spec.Notification.Delivery "webhookUrl" = .error cause
              ∧ e.Error = "failed to get Secret ref from delivery config ("
                  ++ env.FormatV cfg.Spec.Notification.Delivery ++ ") field "
                  ++ env.FormatQ "webhookUrl" ++ ": " ++ cause.Error)
          ∨ (∃ wuRef, env.FindSecretResourceName cfg.Spec.Secrets wuRef = .error cause
              ∧ e.Error = "failed to find Secret for ref " ++ env.FormatQ wuRef ++ ": "
                  ++ cause.Error)
          ∨ (∃ wuResource, sg.GetSecret wuResource = .error cause
              ∧ e.Error = "failed to get token secret: " ++ cause.Error)))
    ∧ (∀ e, (SendNotification env s build).1 = .returned (some e) →
        (∃ msg cause, writeMessage env s build = .returned (msg, some cause)
            ∧ e.Unwrap = some cause
            ∧ e.Error = "failed to write Slack message: " ++ cause.Error)
          ∨ (∃ msg, writeMessage env s build = .returned (msg, none)
              ∧ env.PostWebhook s.webhookURL msg = some e)) := by
  constructor
  · intro e he
    cases h1 : env.MakeCELPredicate cfg.Spec.Notification.Filter with
    | error err =>
      rw [SetUp_cel_error env s cfg sg err h1] at he
      simp only [Option.some.injEq] at he
      subst he
      exact ⟨err, rfl, Or.inl ⟨rfl, rfl⟩⟩
    | ok prd =>
      cases h2 : env.GetSecretRef cfg.Spec.Notification.Delivery webhookURLSecretName with
      | error err =>
        rw [SetUp_ref_error env s cfg sg prd err h1 h2] at he
        simp only [Option.some.injEq] at he
        subst he
        exact ⟨err, rfl, Or.inr (Or.inl ⟨h2, rfl⟩)⟩
      | ok wuRef =>
        cases h3 : env.FindSecretResourceName cfg.Spec.Secrets wuRef with
        | error err =>
          rw [SetUp_find_error env s cfg sg prd wuRef err h1 h2 h3] at he
          simp only [Option.some.injEq] at he
          subst he
          exact ⟨err, rfl, Or.inr (Or.inr (Or.inl ⟨wuRef, h3, rfl⟩))⟩
        | ok wuResource =>
          cases h4 : sg.GetSecret wuResource with
          | error err =>
            rw [SetUp_secret_error env s cfg sg prd wuRef wuResource err h1 h2 h3 h4] at he
            simp only [Option.some.injEq] at he
            subst he
            exact ⟨err, rfl, Or.inr (Or.inr (Or.inr ⟨wuResource, h4, rfl⟩))⟩
          | ok wu =>
            rw [SetUp_ok env s cfg sg prd wuRef wuResource wu h1 h2 h3 h4] at he
            simp at he
  · intro e he
    cases hf : s.filter with
    | none => simp [SendNotification, hf] at he
    | some filter =>
      cases hyes : filter.Apply build with
      | false =>
        rw [SendNotification_skip env s build filter hf hyes] at he
        simp at he
      | true =>
        cases hw : writeMessage env s build with
        | panicked fault =>
          rw [SendNotification_faulted env s build filter fault hf hyes hw] at he
          simp at he
        | returned results =>
          obtain ⟨msg, werr⟩ := results
          cases werr with
          | some err =>
            rw [SendNotification_write_failed env s build filter msg err hf hyes hw] at he
            simp only [Exec.returned.injEq, Option.some.injEq] at he
            subst he
            exact Or.inl ⟨msg, err, rfl, rfl, rfl⟩
          | none =>
            rw [SendNotification_posted env s build filter msg hf hyes hw] at he
            simp only [Exec.returned.injEq] at he
            exact Or.inr ⟨msg, rfl, he⟩

/-- C15 (the code adds no context to a delivery error): when the filter
accepts the build, `writeMessage` returns a message and `PostWebhook` fails
with an error that wraps nothing, `SendNotification` returns that very error:
unlike the five other error returns, which wrap their cause with `%w` under a
context naming the step, the return at line 79 names no step. -/
theorem SendNotification_delivery_error_as_is (env : Env) (s : slackNotifier)
    (build : Build) (filter : EventFilter) (m : WebhookMessage) (e : GoError)
    (hf : s.filter = some filter) (hyes : filter.Apply build = true)
    (hw : writeMessage env s build = .returned (some m, none))
    (hpost : env.PostWebhook s.webhookURL (some m) = some e)
    (hbare : e.Unwrap = none) :
    ∃ r, (SendNotification env s build).1 = .returned (some r)
      ∧ r = e
      ∧ r.Unwrap = none := by
  rw [SendNotification_posted env s build filter (some m) hf hyes hw]
  exact ⟨e, by simp [hpost], rfl, hbare⟩

/-- Witness for C15: the webhook endpoint answers HTTP 500 to the message of
the test build; the status-code error reaches the caller as it is. -/
theorem SendNotification_delivery_error_as_is_witness :
    sampleEnv.PostWebhook downNotifier.webhookURL (some testMessage)
        = some (.leaf "slack server error: 500 Internal Server Error")
      ∧ ∃ r, (SendNotification sampleEnv downNotifier testBuild).1 = .returned (some r)
        ∧ r = .leaf "slack server error: 500 Internal Server Error"
        ∧ r.Unwrap = none :=
  ⟨by decide,
   SendNotification_delivery_error_as_is sampleEnv downNotifier testBuild acceptAll
    testMessage (.leaf "slack server error: 500 Internal Server Error")
    rfl rfl (by decide) (by decide) rfl⟩

/-- C16: `SetUp` returns an error exactly when one of its four steps fails
(compiling the filter predicate, getting the "webhookUrl" secret reference
from the delivery config, finding the secret resource name, fetching the
secret); when all four succeed it returns nil and leaves the notifier with
the compiled predicate as `filter` and the fetched secret as `webhookURL`. -/
theorem SetUp_error_iff_step_fails (env : Env) (s : slackNotifier) (cfg : Config)
    (sg : SecretGetter) :
    ((SetUp env s cfg sg).1 ≠ none ↔
      (∃ err, env.MakeCELPredicate cfg.Spec.Notification.Filter = .error err)
      ∨ (∃ err, env.GetSecretRef cfg.Spec.Notification.Delivery "webhookUrl" = .error err)
      ∨ (∃ wuRef err,
          env.GetSecretRef cfg.Spec.Notification.Delivery "webhookUrl" = .ok wuRef
          ∧ env.FindSecretResourceName cfg.Spec.Secrets wuRef = .error err)
      ∨ (∃ wuRef wuResource err,
          env.GetSecretRef cfg.Spec.Notification.Delivery "webhookUrl" = .ok wuRef
          ∧ env.FindSecretResourceName cfg.Spec.Secrets wuRef = .ok wuResource
          ∧ sg.GetSecret wuResource = .error err))
    ∧ (∀ prd wuRef wuResource wu,
        env.MakeCELPredicate cfg.Spec.Notification.Filter = .ok prd →
        env.GetSecretRef cfg.Spec.Notification.Delivery "webhookUrl" = .ok wuRef →
        env.FindSecretResourceName cfg.Spec.Secrets wuRef = .ok wuResource →
        sg.GetSecret wuResource = .ok wu →
        SetUp env s cfg sg = (none, { filter := some prd, webhookURL := wu })) := by
  refine ⟨?_, fun prd wuRef wuResource wu h1 h2 h3 h4 =>
    SetUp_ok env s cfg sg prd wuRef wuResource wu h1 h2 h3 h4⟩
  cases h1 : env.MakeCELPredicate cfg.Spec.Notification.Filter with
  | error err =>
    rw [SetUp_cel_error env s cfg sg err h1]
    simp
  | ok prd =>
    cases h2 : env.GetSecretRef cfg.Spec.Notification.Delivery webhookURLSecretName with
    | error err =>
      rw [SetUp_ref_error env s cfg sg prd err h1 h2]
      have h2q : env.GetSecretRef cfg.Spec.Notification.Delivery "webhookUrl"
          = .error err := h2
      simp [h2q]
    | ok wuRef =>
      have h2q : env.GetSecretRef cfg.Spec.Notification.Delivery "webhookUrl"
          = .ok wuRef := h2
      cases h3 : env.FindSecretResourceName cfg.Spec.Secrets wuRef with
      | error err =>
        rw [SetUp_find_error env s cfg sg prd wuRef err h1 h2 h3]
        simp [h2q, h3]
      | ok wuResource =>
        cases h4 : sg.GetSecret wuResource with
        | error err =>
          rw [SetUp_secret_error env s cfg sg prd wuRef wuResource err h1 h2 h3 h4]
          simp [h2q, h3, h4]
        | ok wu =>
          rw [SetUp_ok env s cfg sg prd wuRef wuResource wu h1 h2 h3 h4]
          simp [h2q, h3, h4]

/-- Witness for C16: the four steps succeed on the sample configuration, and
`SetUp` stores the compiled predicate and the fetched secret. -/
theorem SetUp_error_iff_step_fails_witness :
    SetUp sampleEnv testNotifier sampleConfig sampleSecretGetter
      = (none,
         { filter := some successOnly
           webhookURL := "https://hooks.slack.example.com/services/T000/B000/XXXX" }) :=
  (SetUp_error_iff_step_fails sampleEnv testNotifier sampleConfig sampleSecretGetter).2
    successOnly "webhook-url" "projects/my-project-id/secrets/slack-webhook/versions/latest"
    "https://hooks.slack.example.com/services/T000/B000/XXXX" rfl rfl rfl rfl

/-- C17: `writeMessage` reads only the build's status, the ids and statuses of
its steps, its log URL and the substitutions SHORT_SHA, BRANCH_NAME,
_PR_NUMBER, REPO_NAME and COMMIT_SHA: two calls whose builds agree on these
give the same result, whatever the notifiers, the builds' ids and project
ids, the other fields of the steps and the other substitution keys are. -/
theorem writeMessage_reads_only (env : Env) (s1 s2 : slackNotifier) (b1 b2 : Build)
    (hstatus : b1.Status = b2.Status)
    (hsteps : (b1.Steps.map fun st => (st.Id, st.Status))
      = b2.Steps.map fun st => (st.Id, st.Status))
    (hlog : b1.LogUrl = b2.LogUrl)
    (hsubst : ∀ key ∈ ["SHORT_SHA", "BRANCH_NAME", "_PR_NUMBER", "REPO_NAME", "COMMIT_SHA"],
      index b1.Substitutions key = index b2.Substitutions key) :
    writeMessage env s1 b1 = writeMessage env s2 b2 :=
  writeMessage_congr env s1 s2 b1 b2 hstatus hsteps hlog
    (hsubst _ (by simp)) (hsubst _ (by simp)) (hsubst _ (by simp))
    (hsubst _ (by simp)) (hsubst _ (by simp))

/-- Witness for C17: two builds with different ids, step names and
substitution lists, and two different notifiers. -/
theorem writeMessage_reads_only_witness :
    failedBuild.Id ≠ otherFailedBuild.Id
      ∧ failedBuild.Substitutions ≠ otherFailedBuild.Substitutions
      ∧ writeMessage sampleEnv testNotifier failedBuild
          = writeMessage sampleEnv successNotifier otherFailedBuild :=
  ⟨by decide, by decide,
   writeMessage_reads_only sampleEnv testNotifier successNotifier failedBuild
    otherFailedBuild (by decide) (by decide) (by decide) (by decide)⟩

/-- C18: when `SetUp` returns an error the notifier's `webhookURL` is what it
was before the call; when the predicate does not compile the `filter` is
unchanged as well; when the predicate compiles the `filter` is the new
predicate afterwards, also if a later secret step fails. -/
theorem SetUp_state_after (env : Env) (s : slackNotifier) (cfg : Config)
    (sg : SecretGetter) :
    ((SetUp env s cfg sg).1 ≠ none → (SetUp env s cfg sg).2.webhookURL = s.webhookURL)
    ∧ (∀ err, env.MakeCELPredicate cfg.Spec.Notification.Filter = .error err →
        (SetUp env s cfg sg).2.filter = s.filter)
    ∧ (∀ prd, env.MakeCELPredicate cfg.Spec.Notification.Filter = .ok prd →
        (SetUp env s cfg sg).2.filter = some prd) := by
  refine ⟨?_, ?_, ?_⟩
  · intro hne
    cases h1 : env.MakeCELPredicate cfg.Spec.Notification.Filter with
    | error err => rw [SetUp_cel_error env s cfg sg err h1]
    | ok prd =>
      cases h2 : env.GetSecretRef cfg.Spec.Notification.Delivery webhookURLSecretName with
      | error err => rw [SetUp_ref_error env s cfg sg prd err h1 h2]
      | ok wuRef =>
        cases h3 : env.FindSecretResourceName cfg.Spec.Secrets wuRef with
        | error err => rw [SetUp_find_error env s cfg sg prd wuRef err h1 h2 h3]
        | ok wuResource =>
          cases h4 : sg.GetSecret wuResource with
          | error err =>
            rw [SetUp_secret_error env s cfg sg prd wuRef wuResource err h1 h2 h3 h4]
          | ok wu =>
            rw [SetUp_ok env s cfg sg prd wuRef wuResource wu h1 h2 h3 h4] at hne
            simp at hne
  · intro err h1
    rw [SetUp_cel_error env s cfg sg err h1]
  · intro prd h1
    cases h2 : env.GetSecretRef cfg.Spec.Notification.Delivery webhookURLSecretName with
    | error err => rw [SetUp_ref_error env s cfg sg prd err h1 h2]
    | ok wuRef =>
      cases h3 : env.FindSecretResourceName cfg.Spec.Secrets wuRef with
      | error err => rw [SetUp_find_error env s cfg sg prd wuRef err h1 h2 h3]
      | ok wuResource =>
        cases h4 : sg.GetSecret wuResource with
        | error err =>
          rw [SetUp_secret_error env s cfg sg prd wuRef wuResource err h1 h2 h3 h4]
        | ok wu => rw [SetUp_ok env s cfg sg prd wuRef wuResource wu h1 h2 h3 h4]

/-- Witness for C18: the secret is not found, so `SetUp` fails after the
predicate compiled; the webhook URL of the earlier setup stays and the filter
is the new predicate. -/
theorem SetUp_state_after_witness :
    (SetUp sampleEnv readyNotifier unknownSecretConfig sampleSecretGetter).1
        = some (.wrapped "failed to get token secret: secret not found"
            (.leaf "secret not found"))
      ∧ (SetUp sampleEnv readyNotifier unknownSecretConfig sampleSecretGetter).2.webhookURL
        = "https://hooks.slack.example.com/services/OLD"
      ∧ (SetUp sampleEnv readyNotifier unknownSecretConfig sampleSecretGetter).2.filter
        = some successOnly :=
  ⟨by decide,
   (SetUp_state_after sampleEnv readyNotifier unknownSecretConfig sampleSecretGetter).1
    (by decide),
   (SetUp_state_after sampleEnv readyNotifier unknownSecretConfig sampleSecretGetter).2.2
    successOnly rfl⟩

end Slack
